import Mathlib

/-!
Shallow embedding of the two extension-point modules of the `pet` repository
fragment: `examples/corpusv_task_processor.py` (the corpus Loader) and
`examples/corpusv_task_pvp.py` (the pattern-verbalizer pair definition).

Python runtime behaviour is made explicit: fallible operations return
`Except PyError`, Python `dict` literals become association lists in source
order, Python list indexing (including negative indices) becomes `pyGet`,
and module-level registration statements become explicit name-resolution
checks against the set of names actually bound in each module's scope.

Framework collaborators that are imported by the two modules but whose code
is not part of this fragment (`InputExample` from `utils`, and
`LimitedExampleList` from `tasks`) are modelled from the specification, as
noted on their doc comments.

The processor module spells its own class-constant references through the
stale name `MyTaskDataProcessor` (lines 110, 123, 128, 139-141 and 151)
while defining only `CorpusVDataProcessor` — the defect spec section 9
records.  These reads are embedded through an explicit name-resolution
environment (`processorClassEnv`/`classAttr`), so the as-written Loader
(`CorpusVDataProcessor.create_examples`) raises `NameError` on every call;
the `_fixed` variants state the same method bodies under the one-name fix
spec section 9 directs, the behaviour the spec describes.
-/

/-- Kinds of Python exceptions that the embedded code can raise. -/
inductive PyError where
  | nameError
  | keyError
  | indexError
  | valueError
deriving DecidableEq

/-- Modelled from the spec: the framework's `InputExample` value type
(spec section 3, "Example"): a unique id (set-type + ordinal), a primary
text, an optional secondary text, and a gold label.  Its code lives in the
framework module `utils`, which is not part of this fragment. -/
structure InputExample where
  guid : String
  text_a : String
  text_b : Option String
  label : String
deriving DecidableEq

namespace CorpusVDataProcessor

/-- `CorpusVDataProcessor.TASK_NAME` (corpusv_task_processor.py line 33). -/
def TASK_NAME : String := "corpusv"

/-- `CorpusVDataProcessor.LABELS` (corpusv_task_processor.py lines 42-89),
in source order. -/
def LABELS : List String :=
  ["Pneumonia",
   "Maternal",
   "Other Injuries",
   "Bite of Venomous Animal",
   "Stillbirth",
   "Other Cancers",
   "Stroke",
   "Other Non-communicable Diseases",
   "Other Infectious Diseases",
   "Malaria",
   "Acute Myocardial Infarction",
   "Suicide",
   "Cervical Cancer",
   "Preterm Delivery",
   "Other Cardiovascular Diseases",
   "Congenital malformation",
   "Sepsis",
   "AIDS",
   "Road Traffic",
   "Cirrhosis",
   "Falls",
   "Diarrhea/Dysentery",
   "Leukemia/Lymphomas",
   "Renal Failure",
   "Fires",
   "Diabetes",
   "Birth asphyxia",
   "Poisonings",
   "TB",
   "Other Defined Causes of Child Deaths",
   "Meningitis",
   "COPD",
   "Drowning",
   "Colorectal Cancer",
   "Other Digestive Diseases",
   "Measles",
   "Homicide",
   "Breast Cancer",
   "Hemorrhagic fever",
   "Encephalitis",
   "Epilepsy",
   "Lung Cancer",
   "Violent Death",
   "Prostate Cancer",
   "Stomach Cancer",
   "Esophageal Cancer",
   "Meningitis/Sepsis",
   "Asthma"]

/-- `CorpusVDataProcessor.TEXT_A_COLUMN` (line 92). -/
def TEXT_A_COLUMN : Int := 1

/-- `CorpusVDataProcessor.TEXT_B_COLUMN` (line 95): `-1` means there is no
secondary-text column for this task. -/
def TEXT_B_COLUMN : Int := -1

/-- `CorpusVDataProcessor.LABEL_COLUMN` (line 98). -/
def LABEL_COLUMN : Int := 2

end CorpusVDataProcessor

/-- A single element of a rendered pattern, as produced by
`MyTaskPVP.get_parts`: a fixed phrase, the example's text marked as
shortenable by `self.shortenable`, or the mask marker `self.mask`. -/
inductive PatternPart where
  | text : String → PatternPart
  | shortenable : String → PatternPart
  | mask : PatternPart
deriving DecidableEq

/-- Number of mask markers in a rendered sequence. -/
def maskCount : List PatternPart → Nat
  | [] => 0
  | PatternPart.mask :: t => maskCount t + 1
  | _ :: t => maskCount t

namespace MyTaskPVP

/-- `MyTaskPVP.TASK_NAME` (corpusv_task_pvp.py line 33). -/
def TASK_NAME : String := "corpusv"

/-- `MyTaskPVP.VERBALIZER` (corpusv_task_pvp.py lines 37-86): the Python
dict literal, embedded as an association list in source order. -/
def VERBALIZER : List (String × List String) :=
  [("Pneumonia", ["pneumonia", "cold", "cough", "fever"]),
   ("Maternal", ["baby", "child", "pregnant", "delivery", "vagina", "cervix"]),
   ("Other Injuries", ["electric", "fell", "iron", "dynamite", "gas", "lightning"]),
   ("Bite of Venomous Animal", ["bite", "snake", "bit", "poison", "bitten"]),
   ("Stillbirth", ["womb", "labor", "delivery"]),
   ("Other Cancers", ["cancer", "chemotherapy", "marrow", "platelet", "leukemia"]),
   ("Stroke", ["attack", "stroke", "paralysis", "brain", "bp"]),
   ("Other Non-communicable Diseases", ["cancer", "perforation", "appendectomy", "chemotherapy"]),
   ("Other Infectious Diseases", ["infection", "fever", "typhoid"]),
   ("Malaria", ["malaria"]),
   ("Acute Myocardial Infarction", ["heart", "attack", "pressure", "ecg"]),
   ("Suicide", ["suicide", "poison", "stress", "hanged", "kerosene", "burnt", "immolated", "mentally"]),
   ("Cervical Cancer", ["cervical", "uterus", "vaginal"]),
   ("Preterm Delivery", ["preterm", "delivery", "baby", "born", "pregnancy"]),
   ("Other Cardiovascular Diseases", ["heart", "cardiovascular", "chest"]),
   ("Congenital malformation", ["malformation", "baby", "child", "problem", "develop", "disability", "abnormal", "hydrocephalus"]),
   ("Sepsis", ["sepsis", "swine", "flu", "bacteria", "brain"]),
   ("AIDS", ["aids", "hiv", "viral"]),
   ("Road Traffic", ["road", "accident", "motorcycle", "bus", "bicycle", "car", "vehicle", "hit", "truck"]),
   ("Cirrhosis", ["cirrhosis", "liver", "jaundice"]),
   ("Falls", ["fall", "fell", "fracture", "roof", "tree", "height"]),
   ("Diarrhea/Dysentery", ["motions", "vomit", "diarrhea", "dysentery", "bowel", "stool"]),
   ("Leukemia/Lymphomas", ["leukemia", "lymphoma", "lymphnodes", "petechiae"]),
   ("Renal Failure", ["kidney", "dialysis", "excrete", "urinate"]),
   ("Fires", ["burnt", "electric", "fire", "kerosene", "burned", "explode", "blisters", "gasoline"]),
   ("Diabetes", ["sugar", "diabetes"]),
   ("Birth asphyxia", ["asphyxia"]),
   ("Poisonings", ["consumed", "drank", "poison", "poisonous", "foam", "inhale", "chemicals", "petrol", "pesticide"]),
   ("TB", ["tb", "tuberculosis", "t.b", "lung"]),
   ("Other Defined Causes of Child Deaths", ["baby", "child", "born"]),
   ("Meningitis", ["baby", "child", "head", "brain", "fever", "meningitis"]),
   ("COPD", ["copd", "bar"]),
   ("Drowning", ["water", "drown", "lake", "drawn", "slip", "river", "flood", "ocean", "sea", "swim", "pond"]),
   ("Colorectal Cancer", ["stomach", "colon", "bowel", "ileostomy", "endoscopy", "colostomy"]),
   ("Other Digestive Diseases", ["stomach", "intestine", "appendix", "stomachache", "peritonitis"]),
   ("Measles", ["measles", "rashes", "pox"]),
   ("Homicide", ["shoot", "shot", "victim", "wound", "kerosene", "fire", "cops", "gun", "aggressor", "stab", "killed", "thief", "thieves"]),
   ("Breast Cancer", ["breast", "nodes", "mammogram", "noctal"]),
   ("Hemorrhagic fever", ["dengue", "fever", "rashes", "scars"]),
   ("Encephalitis", ["brain", "pus", "grub"]),
   ("Epilepsy", ["epilepsy", "convulsions", "seizure"]),
   ("Lung Cancer", ["lung", "smoking", "ct", "chest", "diaphragm"]),
   ("Violent Death", ["killed", "police", "injuries", "murdered", "suicide", "attacked", "hanged", "scold", "axe", "bomb", "explosion"]),
   ("Prostate Cancer", ["prostate", "bladder", "carcinoma", "urinary"]),
   ("Stomach Cancer", ["stomach", "gastritis", "endoscopy"]),
   ("Esophageal Cancer", ["esophagus", "cancer", "swallowing", "endoscopy"]),
   ("Meningitis/Sepsis", ["infection", "septicaemia"]),
   ("Asthma", ["asthma", "attack", "lungs", "dust", "nebulization", "dyspnea"])]

/-- `MyTaskPVP.get_parts` (corpusv_task_pvp.py lines 88-110).  The instance
field `self.pattern_id` (supplied to the PVP's constructor by the framework)
is passed as an explicit argument; `self.mask` becomes `PatternPart.mask`
and `self.shortenable` becomes `PatternPart.shortenable`.  The `raise
ValueError` on line 110 becomes `Except.error PyError.valueError`. -/
def get_parts (pattern_id : Int) (ex : InputExample) :
    Except PyError (List PatternPart × List PatternPart) :=
  let text := PatternPart.shortenable ex.text_a
  if pattern_id = 0 then
    Except.ok ([PatternPart.text "the death wa caused by", PatternPart.mask,
                PatternPart.text ".", text], [])
  else if pattern_id = 1 then
    Except.ok ([text, PatternPart.text "the deceased had suffered from",
                PatternPart.mask, PatternPart.text "."], [])
  else if pattern_id = 2 then
    Except.ok ([PatternPart.text "Just", PatternPart.mask, PatternPart.text "!"],
               [text])
  else if pattern_id = 3 then
    Except.ok ([text],
               [PatternPart.text "deceased died", PatternPart.mask, PatternPart.text "."])
  else
    Except.error PyError.valueError

end MyTaskPVP

/-- First-match association lookup, the behaviour of a Python `dict`
subscript on a dict built from a literal with distinct keys. -/
def assocFind : List (String × List String) → String → Option (List String)
  | [], _ => none
  | (k, v) :: t, a => if k = a then some v else assocFind t a

/-- `MyTaskPVP.verbalize` (corpusv_task_pvp.py lines 112-113): a direct
subscript of the `VERBALIZER` dict; a missing key raises `KeyError`. -/
def MyTaskPVP.verbalize (label : String) : Except PyError (List String) :=
  match assocFind MyTaskPVP.VERBALIZER label with
  | some v => Except.ok v
  | none => Except.error PyError.keyError

/-- The names bound in the module scope of `corpusv_task_processor.py` at
the point where line 151 (the registration statement) executes: the names
introduced by the import statements on lines 19-24 and the class definition
on line 27. -/
def processorModuleNames : List String :=
  ["csv", "os", "List", "Union",
   "DataProcessor", "LimitedExampleList", "PROCESSORS", "InputExample",
   "CorpusVDataProcessor"]

/-- The names bound in the module scope of `corpusv_task_pvp.py` at the
point where line 117 (the registration statement) executes: the names
introduced by the import statements on lines 20-24 and the class definition
on line 27. -/
def pvpModuleNames : List String :=
  ["List", "PVPS", "PVP", "InputExample", "MyTaskPVP"]

/-- The module-level statement `PROCESSORS[MyTaskDataProcessor.TASK_NAME] =
MyTaskDataProcessor` (corpusv_task_processor.py line 151).  Python first
resolves the name `MyTaskDataProcessor` in the module scope; if it is
unbound the statement raises `NameError`, otherwise the registry gains the
entry (task name, registered class name). -/
def registerProcessorEntry : Except PyError (String × String) :=
  if "MyTaskDataProcessor" ∈ processorModuleNames then
    Except.ok (CorpusVDataProcessor.TASK_NAME, "MyTaskDataProcessor")
  else
    Except.error PyError.nameError

/-- The module-level statement `PVPS[MyTaskPVP.TASK_NAME] = MyTaskPVP`
(corpusv_task_pvp.py line 117), with the same name-resolution semantics. -/
def registerPVPEntry : Except PyError (String × String) :=
  if "MyTaskPVP" ∈ pvpModuleNames then
    Except.ok (MyTaskPVP.TASK_NAME, "MyTaskPVP")
  else
    Except.error PyError.nameError

/-- A concrete one-row file used to instantiate the loading theorems. -/
def oneRowFile : List (List String) := [["r0", "text A", "Pneumonia"]]

/-- The example the Loader produces from `oneRowFile` with set type
"train". -/
def oneRowExample : InputExample :=
  { guid := "train-0", text_a := "text A", text_b := none, label := "Pneumonia" }

/-- Count held for a key in a per-label counter table (a Python
`defaultdict(int)` read: absent keys count as 0). -/
def countOf : List (String × Nat) → String → Nat
  | [], _ => 0
  | (k, n) :: t, a => if k = a then n else countOf t a

/-- Increment the count held for a key in a per-label counter table. -/
def bump : List (String × Nat) → String → List (String × Nat)
  | [], a => [(a, 1)]
  | (k, n) :: t, a => if k = a then (k, n + 1) :: t else (k, n) :: bump t a

/-- Modelled from the spec: the framework's `LimitedExampleList` (imported
from `tasks`, whose code is not part of this fragment), the
"capped/ordered example-collection builder" of spec section 6, with the
algorithm of spec section 4.1: per-label counters, a uniform per-label cap
(`maxExamples`, negative meaning unlimited), and a per-label skip threshold
(`skipFirst`). -/
structure LimitedExampleList where
  labels : List String
  maxExamples : Int
  skipFirst : Nat
  matched : List (String × Nat)
  taken : List (String × Nat)
  examples : List InputExample

/-- Modelled from the spec: a fresh `LimitedExampleList` over the given
label set with all counters zero and no examples collected. -/
def LimitedExampleList.init (labels : List String) (maxExamples : Int)
    (skipFirst : Nat) : LimitedExampleList :=
  { labels := labels, maxExamples := maxExamples, skipFirst := skipFirst,
    matched := [], taken := [], examples := [] }

/-- Modelled from the spec: offering one example to the builder
(spec section 4.1).  A label outside the configured label set is a fatal
validation error, surfaced as the `KeyError` a counter-table subscript
raises (spec sections 4.1 and 7, "no silent drop").  Otherwise the row is
discarded while its label's matched count is under the skip threshold,
accepted while the label's cap is unreached (or the cap is unlimited), and
discarded once the cap is met. -/
def LimitedExampleList.add (s : LimitedExampleList) (ex : InputExample) :
    Except PyError LimitedExampleList :=
  if ex.label ∈ s.labels then
    if countOf s.matched ex.label < s.skipFirst then
      Except.ok { s with matched := bump s.matched ex.label }
    else if s.maxExamples < 0 ∨ (countOf s.taken ex.label : Int) < s.maxExamples then
      Except.ok { s with matched := bump s.matched ex.label,
                         taken := bump s.taken ex.label,
                         examples := s.examples ++ [ex] }
    else
      Except.ok { s with matched := bump s.matched ex.label }
  else
    Except.error PyError.keyError

/-- Modelled from the spec: the builder is full once every label is
simultaneously capped; an unlimited cap means it is never full
(spec section 4.1). -/
def LimitedExampleList.isFull (s : LimitedExampleList) : Bool :=
  s.labels.all fun l =>
    decide (¬ (s.maxExamples < 0 ∨ (countOf s.taken l : Int) < s.maxExamples))

/-- Python list-index normalization: a negative index counts from the end. -/
def pyIndex (len : Nat) (i : Int) : Int :=
  if i < 0 then i + (len : Int) else i

/-- Python subscript `row[i]` on a list of strings: the normalized index
must be in range, otherwise `IndexError` is raised. -/
def pyGet (row : List String) (i : Int) : Except PyError String :=
  if 0 ≤ pyIndex row.length i ∧ pyIndex row.length i < (row.length : Int) then
    Except.ok (row.getD (pyIndex row.length i).toNat "")
  else
    Except.error PyError.indexError

/-- The attributes of a processor class object that the Loader's methods
read: the label list (line 128) and the three column constants
(lines 139-141). -/
structure ProcessorClassAttrs where
  LABELS : List String
  TEXT_A_COLUMN : Int
  TEXT_B_COLUMN : Int
  LABEL_COLUMN : Int

/-- The class object that corpusv_task_processor.py line 27 binds to the
name `CorpusVDataProcessor`, carrying the class constants of
lines 42-98. -/
def corpusVClassAttrs : ProcessorClassAttrs :=
  { LABELS := CorpusVDataProcessor.LABELS,
    TEXT_A_COLUMN := CorpusVDataProcessor.TEXT_A_COLUMN,
    TEXT_B_COLUMN := CorpusVDataProcessor.TEXT_B_COLUMN,
    LABEL_COLUMN := CorpusVDataProcessor.LABEL_COLUMN }

/-- The processor-class objects bound in the module scope of
corpusv_task_processor.py: only `CorpusVDataProcessor`.  In particular the
name `MyTaskDataProcessor`, through which lines 110, 123, 128, 139-141 and
151 spell their references, is unbound. -/
def processorClassEnv (n : String) : Option ProcessorClassAttrs :=
  if n = "CorpusVDataProcessor" then some corpusVClassAttrs else none

/-- A Python attribute read `n.attr` in the processor module: the name `n`
is resolved in the module scope first; an unbound name raises `NameError`,
otherwise the read yields the attribute of the bound class object. -/
def classAttr {α : Type} (n : String) (f : ProcessorClassAttrs → α) :
    Except PyError α :=
  match processorClassEnv n with
  | some c => Except.ok (f c)
  | none => Except.error PyError.nameError

/-- The loop body of `CorpusVDataProcessor._create_examples`
(corpusv_task_processor.py lines 136-146), over the parsed rows of the csv
file, carrying the `enumerate` index and the builder state, and
parameterized by the class name `cls` through which the class-constant
attribute reads are spelled (the source, lines 139-141, writes the stale
name `MyTaskDataProcessor`; the fix directed by spec section 9 writes the
defining class's own name).  Each iteration resolves `cls` afresh, as
Python does.  Per the source: guid is `set_type ++ "-" ++ idx`, the label
is `row[cls.LABEL_COLUMN]`, the primary text is `row[cls.TEXT_A_COLUMN]`,
the secondary text is `row[cls.TEXT_B_COLUMN]` when that constant is
non-negative and `None` otherwise, the example is offered to the builder,
and the loop breaks early once the builder is full. -/
def create_examples_aux (cls : String) (set_type : String) :
    List (List String) → Nat → LimitedExampleList →
      Except PyError (List InputExample)
  | [], _, acc => Except.ok acc.examples
  | row :: rest, idx, acc =>
    (classAttr cls (fun c => c.LABEL_COLUMN)).bind fun labelCol =>
    (pyGet row labelCol).bind fun label =>
    (classAttr cls (fun c => c.TEXT_A_COLUMN)).bind fun textACol =>
    (pyGet row textACol).bind fun text_a =>
    (classAttr cls (fun c => c.TEXT_B_COLUMN)).bind fun textBCol =>
    (if 0 ≤ textBCol then (pyGet row textBCol).map some
     else Except.ok none).bind fun text_b =>
    (LimitedExampleList.add acc
        { guid := set_type ++ "-" ++ toString idx, text_a := text_a,
          text_b := text_b, label := label }).bind fun acc2 =>
    if acc2.isFull then Except.ok acc2.examples
    else create_examples_aux cls set_type rest (idx + 1) acc2

/-- `CorpusVDataProcessor.get_labels` as written (corpusv_task_processor.py
lines 126-128): it returns `MyTaskDataProcessor.LABELS`, so it first
resolves the name `MyTaskDataProcessor`, which is unbound in the module
scope. -/
def CorpusVDataProcessor.get_labels : Except PyError (List String) :=
  classAttr "MyTaskDataProcessor" (fun c => c.LABELS)

/-- `CorpusVDataProcessor._create_examples` as written
(corpusv_task_processor.py lines 130-147), with the file's parsed csv rows
passed in place of the file path.  Line 132 evaluates `self.get_labels()`
to build the `LimitedExampleList` before any row is read, and the loop's
class-constant reads go through the stale name `MyTaskDataProcessor`
(lines 139-141); since that name is unbound, every call fails with
`NameError` at line 132. -/
def CorpusVDataProcessor.create_examples (rows : List (List String))
    (set_type : String) (max_examples : Int) (skip_first : Nat) :
    Except PyError (List InputExample) :=
  CorpusVDataProcessor.get_labels.bind fun labels =>
  create_examples_aux "MyTaskDataProcessor" set_type rows 0
    (LimitedExampleList.init labels max_examples skip_first)

/-- `get_labels` under the fix directed by spec section 9: the stale name
replaced by the defining class's own name `CorpusVDataProcessor`, changing
nothing else. -/
def CorpusVDataProcessor.get_labels_fixed : Except PyError (List String) :=
  classAttr "CorpusVDataProcessor" (fun c => c.LABELS)

/-- `_create_examples` under the fix directed by spec section 9, which
replaces each stale `MyTaskDataProcessor` reference (lines 128 and
139-141) by the defining class's own name and changes nothing else: the
loading behaviour the spec describes. -/
def CorpusVDataProcessor.create_examples_fixed (rows : List (List String))
    (set_type : String) (max_examples : Int) (skip_first : Nat) :
    Except PyError (List InputExample) :=
  CorpusVDataProcessor.get_labels_fixed.bind fun labels =>
  create_examples_aux "CorpusVDataProcessor" set_type rows 0
    (LimitedExampleList.init labels max_examples skip_first)

theorem exbind_ok {α β : Type} (a : α) (f : α → Except PyError β) :
    (Except.ok a).bind f = f a := rfl

theorem exbind_error {α β : Type} (e : PyError) (f : α → Except PyError β) :
    (Except.error e : Except PyError α).bind f = Except.error e := rfl

theorem classAttr_corpusv {α : Type} (f : ProcessorClassAttrs → α) :
    classAttr "CorpusVDataProcessor" f = Except.ok (f corpusVClassAttrs) := rfl

theorem classAttr_mytask {α : Type} (f : ProcessorClassAttrs → α) :
    classAttr "MyTaskDataProcessor" f = Except.error PyError.nameError := rfl

theorem attrs_LABEL_COLUMN :
    corpusVClassAttrs.LABEL_COLUMN = CorpusVDataProcessor.LABEL_COLUMN := rfl

theorem attrs_TEXT_A_COLUMN :
    corpusVClassAttrs.TEXT_A_COLUMN = CorpusVDataProcessor.TEXT_A_COLUMN := rfl

theorem textB_sentinel (row : List String) :
    (if 0 ≤ corpusVClassAttrs.TEXT_B_COLUMN then
       (pyGet row corpusVClassAttrs.TEXT_B_COLUMN).map some
     else Except.ok none) = Except.ok none := rfl

theorem pyGet_oob {row : List String} {i : Int} (h0 : 0 ≤ i)
    (h : (row.length : Int) ≤ i) :
    pyGet row i = Except.error PyError.indexError := by
  have hp : pyIndex row.length i = i := by
    unfold pyIndex
    rw [if_neg (by omega : ¬ i < 0)]
  have hc : ¬ (0 ≤ pyIndex row.length i ∧ pyIndex row.length i < (row.length : Int)) := by
    rw [hp]
    rintro ⟨-, hlt⟩
    omega
  unfold pyGet
  rw [if_neg hc]

theorem pyGet_inb {row : List String} {i : Int} (h0 : 0 ≤ i)
    (h : i < (row.length : Int)) :
    pyGet row i = Except.ok (row.getD i.toNat "") := by
  have hp : pyIndex row.length i = i := by
    unfold pyIndex
    rw [if_neg (by omega : ¬ i < 0)]
  have hc : 0 ≤ pyIndex row.length i ∧ pyIndex row.length i < (row.length : Int) := by
    rw [hp]
    exact ⟨h0, h⟩
  unfold pyGet
  rw [if_pos hc, hp]

theorem assocFind_mem_keys :
    ∀ (l : List (String × List String)) (a : String),
      a ∈ l.map Prod.fst → ∃ v, assocFind l a = some v ∧ (a, v) ∈ l := by
  intro l
  induction l with
  | nil => intro a h; simp at h
  | cons p t ih =>
    intro a h
    by_cases hk : p.1 = a
    · refine ⟨p.2, ?_, ?_⟩
      · show assocFind ((p.1, p.2) :: t) a = some p.2
        unfold assocFind
        rw [if_pos hk]
      · subst hk
        exact List.mem_cons_self _ _
    · have hmem : a ∈ t.map Prod.fst := by
        rcases List.mem_cons.mp h with h1 | h1
        · exact absurd h1.symm hk
        · exact h1
      obtain ⟨v, hf, hv⟩ := ih a hmem
      refine ⟨v, ?_, List.mem_cons_of_mem _ hv⟩
      show assocFind ((p.1, p.2) :: t) a = some v
      unfold assocFind
      rw [if_neg hk]
      exact hf

theorem assocFind_not_mem_keys :
    ∀ (l : List (String × List String)) (a : String),
      a ∉ l.map Prod.fst → assocFind l a = none := by
  intro l
  induction l with
  | nil => intro a _; rfl
  | cons p t ih =>
    intro a h
    have hk : ¬ p.1 = a := fun he => h (by simp [he])
    have ht : a ∉ t.map Prod.fst := fun hm => h (by simp [hm])
    show assocFind ((p.1, p.2) :: t) a = none
    unfold assocFind
    rw [if_neg hk]
    exact ih a ht

theorem verbalizer_keys :
    MyTaskPVP.VERBALIZER.map Prod.fst = CorpusVDataProcessor.LABELS := by
  rfl

theorem verbalizer_values_nonempty :
    ∀ p ∈ MyTaskPVP.VERBALIZER, p.2 ≠ [] := by
  decide

theorem add_ok_examples {s : LimitedExampleList} {ex : InputExample}
    {s2 : LimitedExampleList} (h : s.add ex = Except.ok s2) :
    s2.examples = s.examples ∨ s2.examples = s.examples ++ [ex] := by
  unfold LimitedExampleList.add at h
  by_cases hmem : ex.label ∈ s.labels
  · rw [if_pos hmem] at h
    by_cases hskip : countOf s.matched ex.label < s.skipFirst
    · rw [if_pos hskip] at h
      injection h with h
      subst h
      left
      rfl
    · rw [if_neg hskip] at h
      by_cases hcap : s.maxExamples < 0 ∨ (countOf s.taken ex.label : Int) < s.maxExamples
      · rw [if_pos hcap] at h
        injection h with h
        subst h
        right
        rfl
      · rw [if_neg hcap] at h
        injection h with h
        subst h
        left
        rfl
  · rw [if_neg hmem] at h
    exact Except.noConfusion h

theorem create_examples_aux_mem (st : String) :
    ∀ (rows : List (List String)) (idx : Nat) (acc : LimitedExampleList)
      (out : List InputExample),
      create_examples_aux "CorpusVDataProcessor" st rows idx acc = Except.ok out →
      ∀ ex ∈ out, ex ∈ acc.examples ∨
        ∃ j, j < rows.length ∧
          ex.guid = st ++ "-" ++ toString (idx + j) ∧
          pyGet (rows.getD j []) CorpusVDataProcessor.LABEL_COLUMN = Except.ok ex.label ∧
          pyGet (rows.getD j []) CorpusVDataProcessor.TEXT_A_COLUMN = Except.ok ex.text_a ∧
          ex.text_b = none := by
  intro rows
  induction rows with
  | nil =>
    intro idx acc out h ex hex
    simp only [create_examples_aux] at h
    injection h with h
    subst h
    exact Or.inl hex
  | cons row rest ih =>
    intro idx acc out h ex hex
    simp only [create_examples_aux] at h
    simp only [classAttr_corpusv, exbind_ok, attrs_LABEL_COLUMN, attrs_TEXT_A_COLUMN,
      textB_sentinel] at h
    cases hlab : pyGet row CorpusVDataProcessor.LABEL_COLUMN with
    | error e =>
      simp only [hlab, exbind_error] at h
      exact Except.noConfusion h
    | ok label =>
      simp only [hlab, exbind_ok] at h
      cases hta : pyGet row CorpusVDataProcessor.TEXT_A_COLUMN with
      | error e =>
        simp only [hta, exbind_error] at h
        exact Except.noConfusion h
      | ok ta =>
        simp only [hta, exbind_ok] at h
        cases hadd : LimitedExampleList.add acc
            { guid := st ++ "-" ++ toString idx, text_a := ta,
              text_b := none, label := label } with
        | error e =>
          simp only [hadd, exbind_error] at h
          exact Except.noConfusion h
        | ok acc2 =>
          simp only [hadd, exbind_ok] at h
          have hmem2 : ∀ e ∈ acc2.examples, e ∈ acc.examples ∨
              ∃ j, j < (row :: rest).length ∧
                e.guid = st ++ "-" ++ toString (idx + j) ∧
                pyGet ((row :: rest).getD j []) CorpusVDataProcessor.LABEL_COLUMN
                  = Except.ok e.label ∧
                pyGet ((row :: rest).getD j []) CorpusVDataProcessor.TEXT_A_COLUMN
                  = Except.ok e.text_a ∧
                e.text_b = none := by
            intro e he
            rcases add_ok_examples hadd with heq | heq
            · rw [heq] at he
              exact Or.inl he
            · rw [heq] at he
              rcases List.mem_append.mp he with hx | hx
              · exact Or.inl hx
              · have hx0 : e = { guid := st ++ "-" ++ toString idx, text_a := ta, text_b := none, label := label } := by
                  simpa using hx
                subst hx0
                exact Or.inr ⟨0, Nat.succ_pos _, by simp, by simpa using hlab,
                  by simpa using hta, rfl⟩
          by_cases hfull : acc2.isFull = true
          · rw [if_pos hfull] at h
            injection h with h
            subst h
            exact hmem2 ex hex
          · rw [if_neg hfull] at h
            rcases ih (idx + 1) acc2 out h ex hex with hin | ⟨j, hj, hg, hl2, ha2, htb⟩
            · exact hmem2 ex hin
            · right
              refine ⟨j + 1, Nat.succ_lt_succ hj, ?_, ?_, ?_, htb⟩
              · have hidx : idx + (j + 1) = idx + 1 + j := by omega
                rw [hidx]
                exact hg
              · simpa using hl2
              · simpa using ha2

/-- Claim C1: at module import time the Loader class would be registered in
`PROCESSORS` under "corpusv" and the Prompt Definition class in `PVPS`
under the same key.  The code does not satisfy the first half: the
registration statement on corpusv_task_processor.py line 151 refers to the
unbound name `MyTaskDataProcessor` (the class is named
`CorpusVDataProcessor`), so importing the module raises `NameError` and no
entry is added to `PROCESSORS`; the `PVPS` registration of `MyTaskPVP`
under "corpusv" does succeed. -/
theorem registration_behavior :
    registerProcessorEntry = Except.error PyError.nameError ∧
    registerPVPEntry = Except.ok ("corpusv", "MyTaskPVP") := by
  constructor
  · rfl
  · rfl

/-- Claim C2: the Loader's configured label list
`CorpusVDataProcessor.LABELS` and the keys of the Prompt Definition's
verbalizer table `MyTaskPVP.VERBALIZER` are identical sets, so every label
the Loader can return has an entry in the verbalizer table. -/
theorem labels_eq_verbalizer_keys (l : String) :
    l ∈ CorpusVDataProcessor.LABELS ↔ l ∈ MyTaskPVP.VERBALIZER.map Prod.fst := by
  rw [verbalizer_keys]

/-- Claim C3: for every example and each pattern id in {0, 1, 2, 3},
`MyTaskPVP.get_parts` succeeds and the two returned sequences together
contain exactly one mask marker. -/
theorem get_parts_one_mask (pattern_id : Int) (ex : InputExample)
    (h : pattern_id ∈ ([0, 1, 2, 3] : List Int)) :
    ∃ a b, MyTaskPVP.get_parts pattern_id ex = Except.ok (a, b) ∧
      maskCount a + maskCount b = 1 := by
  simp only [List.mem_cons, List.not_mem_nil, or_false] at h
  rcases h with rfl | rfl | rfl | rfl
  all_goals exact ⟨_, _, rfl, rfl⟩

theorem get_parts_one_mask_witness :
    ∃ a b, MyTaskPVP.get_parts 2
        { guid := "train-0", text_a := "she had fever", text_b := none,
          label := "Malaria" } = Except.ok (a, b) ∧
      maskCount a + maskCount b = 1 :=
  get_parts_one_mask 2
    { guid := "train-0", text_a := "she had fever", text_b := none,
      label := "Malaria" } (by decide)

/-- Claim C4: `MyTaskPVP.verbalize` returns a non-empty token sequence for
every label in the configured label set, and fails with a key-not-found
condition (`KeyError`) for every label outside the set. -/
theorem verbalize_spec (label : String) :
    (label ∈ CorpusVDataProcessor.LABELS →
      ∃ v, MyTaskPVP.verbalize label = Except.ok v ∧ v ≠ []) ∧
    (label ∉ CorpusVDataProcessor.LABELS →
      MyTaskPVP.verbalize label = Except.error PyError.keyError) := by
  constructor
  · intro hmem
    have hk : label ∈ MyTaskPVP.VERBALIZER.map Prod.fst := by
      rw [verbalizer_keys]
      exact hmem
    obtain ⟨v, hfind, hpair⟩ := assocFind_mem_keys _ _ hk
    refine ⟨v, ?_, verbalizer_values_nonempty (label, v) hpair⟩
    unfold MyTaskPVP.verbalize
    rw [hfind]
  · intro hmem
    have hk : label ∉ MyTaskPVP.VERBALIZER.map Prod.fst := by
      rw [verbalizer_keys]
      exact hmem
    unfold MyTaskPVP.verbalize
    rw [assocFind_not_mem_keys _ _ hk]

theorem verbalize_spec_witness :
    (∃ v, MyTaskPVP.verbalize "Pneumonia" = Except.ok v ∧ v ≠ []) ∧
    MyTaskPVP.verbalize "Influenza" = Except.error PyError.keyError :=
  ⟨(verbalize_spec "Pneumonia").1 (by decide),
   (verbalize_spec "Influenza").2 (by decide)⟩

/-- Claim C5: for every pattern id outside {0, 1, 2, 3},
`MyTaskPVP.get_parts` fails with the invalid-argument error (`ValueError`)
raised on corpusv_task_pvp.py line 110 and returns no result. -/
theorem get_parts_unknown_pattern (pattern_id : Int)
    (h : pattern_id ∉ ([0, 1, 2, 3] : List Int)) (ex : InputExample) :
    MyTaskPVP.get_parts pattern_id ex = Except.error PyError.valueError := by
  simp only [List.mem_cons, List.not_mem_nil, or_false, not_or] at h
  obtain ⟨h0, h1, h2, h3⟩ := h
  simp [MyTaskPVP.get_parts, h0, h1, h2, h3]

theorem get_parts_unknown_pattern_witness :
    MyTaskPVP.get_parts 7
      { guid := "train-0", text_a := "she had fever", text_b := none,
        label := "Malaria" } = Except.error PyError.valueError :=
  get_parts_unknown_pattern 7 (by decide)
    { guid := "train-0", text_a := "she had fever", text_b := none,
      label := "Malaria" }

/-- Claim C6: loading the 3-row file ("train-0","text A","Pneumonia"),
("train-1","text B","Malaria"), ("train-2","text C","Pneumonia") with
`examples_per_label = 1` and `skip_first = 0` would yield exactly two
examples: one labeled "Pneumonia" from the first occurrence and one
labeled "Malaria", the third row dropped because the Pneumonia cap of 1 is
already met.  The code as written does not: every call to
`_create_examples` raises `NameError` through the unbound name
`MyTaskDataProcessor` (line 132 via line 128) before a single row is read.
Under the fix directed by spec section 9 the load yields exactly the two
claimed examples. -/
theorem load_scenario_three_rows :
    CorpusVDataProcessor.create_examples
        [["train-0", "text A", "Pneumonia"], ["train-1", "text B", "Malaria"],
         ["train-2", "text C", "Pneumonia"]] "train" 1 0 =
      Except.error PyError.nameError ∧
    CorpusVDataProcessor.create_examples_fixed
        [["train-0", "text A", "Pneumonia"], ["train-1", "text B", "Malaria"],
         ["train-2", "text C", "Pneumonia"]] "train" 1 0 =
      Except.ok
        [{ guid := "train-0", text_a := "text A", text_b := none, label := "Pneumonia" },
         { guid := "train-1", text_a := "text B", text_b := none, label := "Malaria" }] := by
  constructor
  · rfl
  · rfl

/-- Claim C7: the load would fail with a fatal parse error (`IndexError`)
on a malformed row with fewer than three fields and with a fatal
validation error (`KeyError`) on a row whose label is outside the
configured label set, never silently dropping the row or emitting a
partial example.  The code as written raises neither: every call fails
with `NameError` at line 132 (through the unbound `MyTaskDataProcessor`)
before any row is read — shown on a malformed-row file and on an
unknown-label file.  Under the fix directed by spec section 9 the claimed
error behaviour holds, stated for an offending row reached at any loop
state and at the top of the load, the whole load aborting with the error
either way. -/
theorem load_error_handling :
    (CorpusVDataProcessor.create_examples [["lone-field"]] "train" (-1) 0 =
       Except.error PyError.nameError ∧
     CorpusVDataProcessor.create_examples [["r0", "some text", "Influenza"]]
       "train" (-1) 0 = Except.error PyError.nameError) ∧
    (∀ (st : String) (row : List String) (rest : List (List String))
       (idx : Nat) (acc : LimitedExampleList), row.length < 3 →
       create_examples_aux "CorpusVDataProcessor" st (row :: rest) idx acc =
         Except.error PyError.indexError) ∧
    (∀ (st : String) (row : List String) (rest : List (List String))
       (idx : Nat) (acc : LimitedExampleList), 3 ≤ row.length →
       row.getD 2 "" ∉ acc.labels →
       create_examples_aux "CorpusVDataProcessor" st (row :: rest) idx acc =
         Except.error PyError.keyError) ∧
    (∀ (row : List String) (rest : List (List String)) (st : String)
       (m : Int) (k : Nat), row.length < 3 →
       CorpusVDataProcessor.create_examples_fixed (row :: rest) st m k =
         Except.error PyError.indexError) ∧
    (∀ (row : List String) (rest : List (List String)) (st : String)
       (m : Int) (k : Nat), 3 ≤ row.length →
       row.getD 2 "" ∉ CorpusVDataProcessor.LABELS →
       CorpusVDataProcessor.create_examples_fixed (row :: rest) st m k =
         Except.error PyError.keyError) := by
  have hA : ∀ (st : String) (row : List String) (rest : List (List String))
      (idx : Nat) (acc : LimitedExampleList), row.length < 3 →
      create_examples_aux "CorpusVDataProcessor" st (row :: rest) idx acc =
        Except.error PyError.indexError := by
    intro st row rest idx acc hlen
    have hg : pyGet row CorpusVDataProcessor.LABEL_COLUMN = Except.error PyError.indexError := by
      have h2 : pyGet row 2 = Except.error PyError.indexError :=
        pyGet_oob (by decide) (by omega)
      simpa [CorpusVDataProcessor.LABEL_COLUMN] using h2
    simp only [create_examples_aux, classAttr_corpusv, exbind_ok, attrs_LABEL_COLUMN,
      hg, exbind_error]
  have hB : ∀ (st : String) (row : List String) (rest : List (List String))
      (idx : Nat) (acc : LimitedExampleList), 3 ≤ row.length →
      row.getD 2 "" ∉ acc.labels →
      create_examples_aux "CorpusVDataProcessor" st (row :: rest) idx acc =
        Except.error PyError.keyError := by
    intro st row rest idx acc hlen hnl
    have hg2 : pyGet row CorpusVDataProcessor.LABEL_COLUMN = Except.ok (row.getD 2 "") := by
      have h2 : pyGet row 2 = Except.ok (row.getD (2 : Int).toNat "") :=
        pyGet_inb (by decide) (by omega)
      simpa [CorpusVDataProcessor.LABEL_COLUMN] using h2
    have hg1 : pyGet row CorpusVDataProcessor.TEXT_A_COLUMN = Except.ok (row.getD 1 "") := by
      have h1 : pyGet row 1 = Except.ok (row.getD (1 : Int).toNat "") :=
        pyGet_inb (by decide) (by omega)
      simpa [CorpusVDataProcessor.TEXT_A_COLUMN] using h1
    have hadd : LimitedExampleList.add acc
        { guid := st ++ "-" ++ toString idx, text_a := row.getD 1 "",
          text_b := none, label := row.getD 2 "" } = Except.error PyError.keyError := by
      unfold LimitedExampleList.add
      rw [if_neg hnl]
    simp only [create_examples_aux, classAttr_corpusv, exbind_ok, attrs_LABEL_COLUMN,
      attrs_TEXT_A_COLUMN, textB_sentinel, hg2, hg1, hadd, exbind_error]
  refine ⟨⟨rfl, rfl⟩, hA, hB, ?_, ?_⟩
  · intro row rest st m k hlen
    show create_examples_aux "CorpusVDataProcessor" st (row :: rest) 0
        (LimitedExampleList.init CorpusVDataProcessor.LABELS m k) =
      Except.error PyError.indexError
    exact hA st row rest 0 _ hlen
  · intro row rest st m k hlen hnl
    show create_examples_aux "CorpusVDataProcessor" st (row :: rest) 0
        (LimitedExampleList.init CorpusVDataProcessor.LABELS m k) =
      Except.error PyError.keyError
    exact hB st row rest 0 _ hlen hnl

theorem load_error_handling_witness :
    CorpusVDataProcessor.create_examples_fixed [["lone-field"]] "train" (-1) 0 =
      Except.error PyError.indexError ∧
    CorpusVDataProcessor.create_examples_fixed [["r0", "some text", "Influenza"]]
      "train" (-1) 0 = Except.error PyError.keyError :=
  ⟨load_error_handling.2.2.2.1 ["lone-field"] [] "train" (-1) 0 (by decide),
   load_error_handling.2.2.2.2 ["r0", "some text", "Influenza"] [] "train" (-1) 0
     (by decide) (by decide)⟩

/-- Claim C8: two calls to the load with identical arguments over the same
file contents return identical example sequences.  The code as written
returns no example sequences at all: every call raises `NameError`
(line 132, through the unbound `MyTaskDataProcessor`), shown on a concrete
file.  Under the fix directed by spec section 9 the load is a pure
function of its arguments, so identical arguments give identical output. -/
theorem load_deterministic :
    CorpusVDataProcessor.create_examples [["r0", "text A", "Malaria"]] "train" 1 0 =
      Except.error PyError.nameError ∧
    ∀ (rows rows2 : List (List String)) (st st2 : String) (m m2 : Int)
      (k k2 : Nat), rows = rows2 → st = st2 → m = m2 → k = k2 →
      CorpusVDataProcessor.create_examples_fixed rows st m k =
        CorpusVDataProcessor.create_examples_fixed rows2 st2 m2 k2 := by
  refine ⟨rfl, ?_⟩
  intro rows rows2 st st2 m m2 k k2 hr hs hm hk
  subst hr hs hm hk
  rfl

theorem load_deterministic_witness :
    CorpusVDataProcessor.create_examples_fixed [["r0", "text A", "Malaria"]] "train" 1 0 =
      CorpusVDataProcessor.create_examples_fixed [["r0", "text A", "Malaria"]] "train" 1 0 :=
  load_deterministic.2 [["r0", "text A", "Malaria"]] [["r0", "text A", "Malaria"]]
    "train" "train" 1 1 0 0 rfl rfl rfl rfl

/-- Claim C9: every returned example's id would be `set_type ++ "-" ++ i`
for the zero-based index `i` of the example's row in the input file (the
row at that index supplying the example's label and primary text), with
discarded rows still consuming indices so that the ids need not be
consecutive.  The code as written returns no examples at all: every call
raises `NameError` (line 132, through the unbound `MyTaskDataProcessor`),
shown on a concrete file.  Under the fix directed by spec section 9 the id
property holds, and a file with rows labelled Pneumonia, Pneumonia,
Malaria loaded with cap 1 yields the non-consecutive ids "train-0" and
"train-2". -/
theorem guid_from_row_index :
    CorpusVDataProcessor.create_examples oneRowFile "train" 1 0 =
      Except.error PyError.nameError ∧
    (∀ (rows : List (List String)) (st : String) (m : Int) (k : Nat)
       (out : List InputExample),
       CorpusVDataProcessor.create_examples_fixed rows st m k = Except.ok out →
       ∀ ex ∈ out, ∃ i, i < rows.length ∧
         ex.guid = st ++ "-" ++ toString i ∧
         pyGet (rows.getD i []) CorpusVDataProcessor.LABEL_COLUMN = Except.ok ex.label ∧
         pyGet (rows.getD i []) CorpusVDataProcessor.TEXT_A_COLUMN = Except.ok ex.text_a) ∧
    CorpusVDataProcessor.create_examples_fixed
        [["r0", "text A", "Pneumonia"], ["r1", "text B", "Pneumonia"],
         ["r2", "text C", "Malaria"]] "train" 1 0 =
      Except.ok
        [{ guid := "train-0", text_a := "text A", text_b := none, label := "Pneumonia" },
         { guid := "train-2", text_a := "text C", text_b := none, label := "Malaria" }] := by
  refine ⟨rfl, ?_, rfl⟩
  intro rows st m k out h ex hex
  have h2 : create_examples_aux "CorpusVDataProcessor" st rows 0
      (LimitedExampleList.init CorpusVDataProcessor.LABELS m k) = Except.ok out := h
  rcases create_examples_aux_mem st rows 0 _ out h2 ex hex with hin | ⟨j, hj, hg, hl, ha, _⟩
  · simp [LimitedExampleList.init] at hin
  · exact ⟨j, hj, by simpa using hg, hl, ha⟩

theorem guid_from_row_index_witness :
    ∃ i, i < oneRowFile.length ∧
      oneRowExample.guid = "train" ++ "-" ++ toString i ∧
      pyGet (oneRowFile.getD i []) CorpusVDataProcessor.LABEL_COLUMN =
        Except.ok oneRowExample.label ∧
      pyGet (oneRowFile.getD i []) CorpusVDataProcessor.TEXT_A_COLUMN =
        Except.ok oneRowExample.text_a :=
  guid_from_row_index.2.1 oneRowFile "train" 1 0 [oneRowExample] rfl oneRowExample
    (by simp)

/-- Claim C10: the secondary-text column constant is the sentinel -1, so
every example produced by the Loader would have `text_b = none`,
regardless of the file's contents.  The sentinel constant is faithful to
line 95, but the code as written produces no examples at all: every call
raises `NameError` (line 132, through the unbound `MyTaskDataProcessor`),
shown on a concrete file.  Under the fix directed by spec section 9, every
example the load returns has `text_b = none`. -/
theorem text_b_always_none :
    CorpusVDataProcessor.TEXT_B_COLUMN = -1 ∧
    CorpusVDataProcessor.create_examples oneRowFile "train" 1 0 =
      Except.error PyError.nameError ∧
    ∀ (rows : List (List String)) (st : String) (m : Int) (k : Nat)
      (out : List InputExample),
      CorpusVDataProcessor.create_examples_fixed rows st m k = Except.ok out →
      ∀ ex ∈ out, ex.text_b = none := by
  refine ⟨rfl, rfl, ?_⟩
  intro rows st m k out h ex hex
  have h2 : create_examples_aux "CorpusVDataProcessor" st rows 0
      (LimitedExampleList.init CorpusVDataProcessor.LABELS m k) = Except.ok out := h
  rcases create_examples_aux_mem st rows 0 _ out h2 ex hex with hin | ⟨_, _, _, _, _, htb⟩
  · simp [LimitedExampleList.init] at hin
  · exact htb

theorem text_b_always_none_witness : oneRowExample.text_b = none :=
  text_b_always_none.2.2 oneRowFile "train" 1 0 [oneRowExample] rfl oneRowExample
    (by simp)
